import Mathlib

/-!
Verification of the Post Resource Service of a Go (Gin + GORM) blog backend.

The definitions below shallowly embed the service layer
(`services/post.service.go`) and the pagination normalization of the HTTP
controller (`controllers/post.controller.go`).  Go `error` values are
embedded as a tree of messages mirroring `errors.New` / `fmt.Errorf` with
`%w` wrapping; `time.Time` values and `uuid.UUID` values are embedded as
`Nat` (with `0` playing the role of the Go zero value); the GORM-backed
store is embedded as a list of rows plus a fresh-identifier counter.
-/

/-- Go `error` values: `errors.New msg` builds a leaf, `fmt.Errorf` with a
trailing `%w` verb builds a wrapper that keeps the cause for `errors.Is` /
`errors.Unwrap`. -/
inductive GoError where
  | simple (msg : String)
  | wrapper (ctx : String) (cause : GoError)
deriving DecidableEq, Repr

/-- The text of a Go error, as returned by its `Error()` method: a wrapper
built by `fmt.Errorf("ctx%w", cause)` prints its context followed by the
cause text. -/
def GoError.message : GoError → String
  | .simple m => m
  | .wrapper c e => c ++ e.message

/-- `errors.Is e target`: `e` equals the target or wraps a chain reaching
it. -/
def errorIs : GoError → GoError → Bool
  | .simple m, target => GoError.simple m == target
  | .wrapper c e, target => GoError.wrapper c e == target || errorIs e target

/-- `gorm.ErrRecordNotFound`, the sentinel error returned by `First` when
no row matches. -/
def gormErrRecordNotFound : GoError := GoError.simple "record not found"

/-- `sub` occurs at the start of the character list. -/
def listStartsWith : List Char → List Char → Bool
  | _, [] => true
  | [], _ :: _ => false
  | a :: as, b :: bs => a == b && listStartsWith as bs

/-- `sub` occurs somewhere in the character list. -/
def hasSubList (sub : List Char) : List Char → Bool
  | [] => sub.isEmpty
  | a :: as => listStartsWith (a :: as) sub || hasSubList sub as

/-- Go `strings.Contains s sub`. -/
def strContains (s sub : String) : Bool :=
  hasSubList sub.toList s.toList

/-- Modelled from the spec: the `models.Post` entity (the models package is
not part of the given sources).  §3 of the spec: opaque unique identifier,
title, content, optional image, owning-user identifier, creation and
last-update timestamps.  Identifiers and user identifiers are embedded as
`Nat` (0 = the Go zero `uuid.UUID`), timestamps as `Nat` (0 = the Go zero
`time.Time`). -/
structure Post where
  id : Nat
  title : String
  content : String
  image : String
  user : Nat
  createdAt : Nat
  updatedAt : Nat
deriving DecidableEq, Repr

/-- Modelled from the spec: `models.CreatePostRequest` — title, content,
optional image (§4.2 Create inputs). -/
structure CreatePostRequest where
  title : String
  content : String
  image : String
deriving DecidableEq, Repr

/-- Modelled from the spec: `models.UpdatePost` — the new title, content
and image of an update request (§4.2 Update inputs). -/
structure UpdatePostRequest where
  title : String
  content : String
  image : String
deriving DecidableEq, Repr

/-- The store: the `posts` table plus the generator state for the
`uuid_generate_v4()` column default, embedded as a row list in insertion
order and a fresh counter.  Modelled from the spec: §4.1, a durable store
with a title uniqueness constraint and identifier generation at insert. -/
structure DBState where
  posts : List Post
  nextId : Nat
deriving DecidableEq, Repr

/-- Every stored row's identifier was generated before the counter's
current value (identifier freshness invariant of the store model). -/
def dbWF (st : DBState) : Bool :=
  st.posts.all fun p => decide (p.id < st.nextId)

/-- The text PostgreSQL puts in a uniqueness-violation error; GORM
surfaces it verbatim, so the service sees a message containing the words
`duplicate key`. -/
def pgDuplicateKeyMsg : String :=
  "ERROR: duplicate key value violates unique constraint \"posts_title_key\" (SQLSTATE 23505)"

/-- The outcome of a GORM call: `result.Error` and `result.RowsAffected`. -/
structure GormResult where
  err : Option GoError
  rowsAffected : Nat
deriving DecidableEq, Repr

/-- `s.DB.Create(&newPost)`: inserts the row, letting the column default
generate its identifier (returned in the stored row); reports the
PostgreSQL duplicate-key error when the title uniqueness constraint is
violated. -/
def dbCreate (st : DBState) (newPost : Post) : Except GoError Post × DBState :=
  if st.posts.any (fun p => p.title == newPost.title) then
    (Except.error (GoError.simple pgDuplicateKeyMsg), st)
  else
    (Except.ok { newPost with id := st.nextId },
     { posts := st.posts ++ [{ newPost with id := st.nextId }], nextId := st.nextId + 1 })

/-- `s.DB.First(&post, "id = ?", postID)`: the first row matching the
identifier, or `gorm.ErrRecordNotFound`. -/
def dbFirst (st : DBState) (postID : Nat) : Except GoError Post :=
  match st.posts.find? (fun p => p.id == postID) with
  | some p => Except.ok p
  | none => Except.error gormErrRecordNotFound

/-- `s.DB.Limit(limit).Offset(offset).Find(&posts)` for the normalized
(positive) pagination arguments the controller produces: the window of
`limit` rows starting `offset` rows in, in stored order. -/
def dbFind (st : DBState) (limit offset : Int) : Except GoError (List Post) :=
  Except.ok ((st.posts.drop offset.toNat).take limit.toNat)

/-- GORM struct-update semantics for `Model(&base).Updates(upd)`: fields of
the update struct holding their Go zero value (empty string, zero UUID,
zero time, zero identifier) are skipped, every other field is assigned;
the assigned values are also written back into the model object `base`. -/
def applyNonZero (base upd : Post) : Post :=
  { id := if upd.id = 0 then base.id else upd.id,
    title := if upd.title = "" then base.title else upd.title,
    content := if upd.content = "" then base.content else upd.content,
    image := if upd.image = "" then base.image else upd.image,
    user := if upd.user = 0 then base.user else upd.user,
    createdAt := if upd.createdAt = 0 then base.createdAt else upd.createdAt,
    updatedAt := if upd.updatedAt = 0 then base.updatedAt else upd.updatedAt }

/-- `s.DB.Model(&existing).Updates(upd)`: applies the non-zero fields of
`upd` to the row with `existing`'s identifier (and to the in-memory model
object, whose new value is returned); reports the PostgreSQL duplicate-key
error when the new title collides with another row's title. -/
def dbUpdates (st : DBState) (existing upd : Post) : Except GoError Post × DBState :=
  if st.posts.any (fun p => p.id != existing.id && p.title == (applyNonZero existing upd).title) then
    (Except.error (GoError.simple pgDuplicateKeyMsg), st)
  else
    (Except.ok (applyNonZero existing upd),
     { st with posts := st.posts.map fun p => if p.id == existing.id then applyNonZero existing upd else p })

/-- `s.DB.Delete(&models.Post{}, "id = ?", postID)`: removes the matching
rows and reports how many were affected. -/
def dbDelete (st : DBState) (postID : Nat) : GormResult × DBState :=
  ({ err := none,
     rowsAffected := st.posts.length - (st.posts.filter fun p => !(p.id == postID)).length },
   { st with posts := st.posts.filter fun p => !(p.id == postID) })

/-- The error classification of `PostService.CreatePost`: a store error
whose text contains `duplicate key` becomes the conflict error
`post with that title already exists`; any other store error is wrapped as
`failed to create post: %w`; success passes through. -/
def classifyCreateResult (res : Except GoError Post) : Except GoError Post :=
  match res with
  | Except.ok p => Except.ok p
  | Except.error e =>
    if strContains e.message "duplicate key" then
      Except.error (GoError.simple "post with that title already exists")
    else
      Except.error (GoError.wrapper "failed to create post: " e)

/-- The row `PostService.CreatePost` builds before inserting: title,
content and image from the payload, owning user from the authenticated
caller, both timestamps from one reading `now := time.Now()`. -/
def newPostOf (payload : CreatePostRequest) (userID now : Nat) : Post :=
  { id := 0, title := payload.title, content := payload.content,
    image := payload.image, user := userID, createdAt := now, updatedAt := now }

/-- `PostService.CreatePost payload userID` at clock reading `now`. -/
def createPost (st : DBState) (payload : CreatePostRequest) (userID now : Nat) :
    Except GoError Post × DBState :=
  (classifyCreateResult (dbCreate st (newPostOf payload userID now)).1,
   (dbCreate st (newPostOf payload userID now)).2)

/-- The update record `PostService.UpdatePost` builds: a `models.Post`
holding the payload's title/content/image, the caller as user, `now` as
update timestamp, and Go zero values everywhere else. -/
def updatedDataOf (payload : UpdatePostRequest) (userID now : Nat) : Post :=
  { id := 0, title := payload.title, content := payload.content,
    image := payload.image, user := userID, createdAt := 0, updatedAt := now }

/-- `PostService.UpdatePost postID payload userID` at clock reading `now`:
fetches the existing row (failing with `post not found` when
`gorm.ErrRecordNotFound`), applies the update record, and returns the
in-memory model object. -/
def updatePost (st : DBState) (postID : Nat) (payload : UpdatePostRequest)
    (userID now : Nat) : Except GoError Post × DBState :=
  match dbFirst st postID with
  | Except.error e =>
    if errorIs e gormErrRecordNotFound then
      (Except.error (GoError.simple "post not found"), st)
    else
      (Except.error (GoError.wrapper "failed to fetch post: " e), st)
  | Except.ok existingPost =>
    match dbUpdates st existingPost (updatedDataOf payload userID now) with
    | (Except.error e, st2) => (Except.error (GoError.wrapper "failed to update post: " e), st2)
    | (Except.ok synced, st2) => (Except.ok synced, st2)

/-- `PostService.FindPostByID postID`. -/
def findPostByID (st : DBState) (postID : Nat) : Except GoError Post :=
  match dbFirst st postID with
  | Except.error e =>
    if errorIs e gormErrRecordNotFound then
      Except.error (GoError.simple "post not found")
    else
      Except.error (GoError.wrapper "failed to fetch post: " e)
  | Except.ok p => Except.ok p

/-- `PostService.FindPosts page limit`: offset is `(page - 1) * limit`. -/
def findPosts (st : DBState) (page limit : Int) : Except GoError (List Post) :=
  match dbFind st limit ((page - 1) * limit) with
  | Except.error e => Except.error (GoError.wrapper "failed to fetch posts: " e)
  | Except.ok posts => Except.ok posts

/-- The `post not found` / wrap-on-error logic of `PostService.DeletePost`,
as a function of the GORM delete outcome. -/
def deletePostResult (result : GormResult) : Option GoError :=
  match result.err with
  | some e => some (GoError.wrapper "failed to delete post: " e)
  | none =>
    if result.rowsAffected == 0 then some (GoError.simple "post not found")
    else none

/-- `PostService.DeletePost postID`. -/
def deletePost (st : DBState) (postID : Nat) : Option GoError × DBState :=
  (deletePostResult (dbDelete st postID).1, (dbDelete st postID).2)

/-- The controller's normalization of the raw `page` query value: the
`strconv.Atoi` outcome is embedded as `Option Int` (`none` = parse error);
a parse error or a parsed value below 1 is replaced by 1. -/
def normalizePageParam (parsed : Option Int) : Int :=
  match parsed with
  | none => 1
  | some n => if n < 1 then 1 else n

/-- The controller's normalization of the raw `limit` query value: a parse
error or a parsed value below 1 is replaced by 10. -/
def normalizeLimitParam (parsed : Option Int) : Int :=
  match parsed with
  | none => 10
  | some n => if n < 1 then 10 else n

/-- A raw pagination value the controller treats as invalid: it failed to
parse, or parsed below 1. -/
def invalidParam (parsed : Option Int) : Bool :=
  match parsed with
  | none => true
  | some n => decide (n < 1)

/-- `PostController.FindPosts`: normalizes both raw query values, then
calls the service. -/
def findPostsHandler (st : DBState) (rawPage rawLimit : Option Int) :
    Except GoError (List Post) :=
  findPosts st (normalizePageParam rawPage) (normalizeLimitParam rawLimit)

/-- A concrete stored row used to instantiate the theorems. -/
def samplePost1 : Post :=
  { id := 1, title := "alps trip", content := "c1", image := "i1",
    user := 1, createdAt := 5, updatedAt := 5 }

/-- A second concrete stored row. -/
def samplePost2 : Post :=
  { id := 2, title := "rome trip", content := "c2", image := "i2",
    user := 2, createdAt := 6, updatedAt := 6 }

/-- A concrete store holding the two sample rows. -/
def sampleStore : DBState := { posts := [samplePost1, samplePost2], nextId := 3 }

/-- A concrete update request supplying a new title and leaving content and
image empty. -/
def updPayload : UpdatePostRequest := { title := "new title", content := "", image := "" }

/-- The row `samplePost1` becomes when `updPayload` is applied by user 9 at
time 50. -/
def updatedSample1 : Post :=
  { id := 1, title := "new title", content := "c1", image := "i1",
    user := 9, createdAt := 5, updatedAt := 50 }

/-- The store after that update. -/
def updatedStore : DBState := { posts := [updatedSample1, samplePost2], nextId := 3 }

/-- A concrete create request with a fresh title. -/
def createdPayload : CreatePostRequest := { title := "k2 trek", content := "cc", image := "ii" }

/-- The row created from `createdPayload` by user 4 at time 9. -/
def createdPost : Post :=
  { id := 3, title := "k2 trek", content := "cc", image := "ii",
    user := 4, createdAt := 9, updatedAt := 9 }

/-- The store after that create. -/
def createdStore : DBState :=
  { posts := [samplePost1, samplePost2, createdPost], nextId := 4 }

/-- A concrete create request whose title collides with a stored row. -/
def dupPayload : CreatePostRequest := { title := "alps trip", content := "c", image := "" }

theorem dbFirst_ok_find (st : DBState) (postID : Nat) (q : Post)
    (h : dbFirst st postID = Except.ok q) :
    st.posts.find? (fun p => p.id == postID) = some q := by
  unfold dbFirst at h
  split at h
  · next p hp => injection h with h1; rw [hp, h1]
  · next hp => exact Except.noConfusion h

theorem find_map_replace (l : List Post) (target synced : Post) (postID : Nat)
    (hfind : l.find? (fun p => p.id == postID) = some target)
    (hid : synced.id = target.id) :
    (l.map fun p => if p.id == target.id then synced else p).find?
      (fun p => p.id == postID) = some synced := by
  have htid : (target.id == postID) = true := by
    have h := List.find?_some hfind
    simpa using h
  induction l with
  | nil => simp at hfind
  | cons a l ih =>
    by_cases ha : (a.id == postID) = true
    · rw [@List.find?_cons_of_pos Post (fun p => p.id == postID) a l ha] at hfind
      have haeq : a = target := by injection hfind
      subst haeq
      simp only [List.map_cons]
      rw [if_pos (show (a.id == a.id) = true by simp)]
      exact List.find?_cons_of_pos _ (by rw [hid]; exact htid)
    · rw [@List.find?_cons_of_neg Post (fun p => p.id == postID) a l ha] at hfind
      have hat : ¬ (a.id == target.id) = true := by
        intro hcon
        apply ha
        rw [show a.id = target.id from beq_iff_eq.mp hcon]
        exact htid
      simp only [List.map_cons]
      rw [if_neg hat, @List.find?_cons_of_neg Post (fun p => p.id == postID) a _ ha]
      exact ih hfind

theorem find_append_right (l : List Post) (pred : Post → Bool) (x : Post)
    (h : l.find? pred = none) (hx : pred x = true) :
    (l ++ [x]).find? pred = some x := by
  induction l with
  | nil =>
    simp only [List.nil_append]
    exact List.find?_cons_of_pos _ hx
  | cons a l ih =>
    have ha : ¬ pred a = true := by
      intro hcon
      rw [List.find?_cons_of_pos _ hcon] at h
      exact Option.noConfusion h
    rw [List.find?_cons_of_neg _ ha] at h
    rw [List.cons_append, List.find?_cons_of_neg _ ha]
    exact ih h

theorem deleteRowsZero_iff (l : List Post) (postID : Nat) :
    (l.length - (l.filter fun p => !(p.id == postID)).length = 0) ↔
      (l.all fun p => !(p.id == postID)) = true := by
  have hle := List.length_filter_le (fun p => !(p.id == postID)) l
  constructor
  · intro h
    have heq : (l.filter fun p => !(p.id == postID)).length = l.length := by omega
    rw [List.all_eq_true]
    exact List.filter_length_eq_length.mp heq
  · intro h
    have heq : (l.filter fun p => !(p.id == postID)) = l :=
      List.filter_eq_self.mpr (List.all_eq_true.mp h)
    rw [heq]
    omega

theorem updatePost_ok_spec (st : DBState) (postID : Nat) (payload : UpdatePostRequest)
    (userID now : Nat) (existing ret : Post) (st' : DBState)
    (hfind : dbFirst st postID = Except.ok existing)
    (hupd : updatePost st postID payload userID now = (Except.ok ret, st')) :
    ret = applyNonZero existing (updatedDataOf payload userID now) ∧
    st' = { st with posts := st.posts.map fun p => if p.id == existing.id then ret else p } ∧
    dbFirst st' postID = Except.ok ret := by
  unfold updatePost at hupd
  rw [hfind] at hupd
  have hupd2 : (match dbUpdates st existing (updatedDataOf payload userID now) with
      | (Except.error e, st2) => (Except.error (GoError.wrapper "failed to update post: " e), st2)
      | (Except.ok synced, st2) => (Except.ok synced, st2)) =
      ((Except.ok ret : Except GoError Post), st') := hupd
  by_cases hc : (st.posts.any fun p =>
      p.id != existing.id && p.title == (applyNonZero existing (updatedDataOf payload userID now)).title) = true
  · have hdb : dbUpdates st existing (updatedDataOf payload userID now) =
        (Except.error (GoError.simple pgDuplicateKeyMsg), st) := by
      unfold dbUpdates
      rw [if_pos hc]
    rw [hdb] at hupd2
    have hupd3 : ((Except.error (GoError.wrapper "failed to update post: "
        (GoError.simple pgDuplicateKeyMsg)) : Except GoError Post), st) =
        ((Except.ok ret : Except GoError Post), st') := hupd2
    exact absurd (congrArg Prod.fst hupd3) (by simp)
  · have hdb : dbUpdates st existing (updatedDataOf payload userID now) =
        (Except.ok (applyNonZero existing (updatedDataOf payload userID now)),
         { st with posts := st.posts.map fun p =>
            if p.id == existing.id then applyNonZero existing (updatedDataOf payload userID now) else p }) := by
      unfold dbUpdates
      rw [if_neg hc]
    rw [hdb] at hupd2
    have hupd3 : ((Except.ok (applyNonZero existing (updatedDataOf payload userID now)) :
        Except GoError Post),
        ({ st with posts := st.posts.map fun p =>
          if p.id == existing.id then applyNonZero existing (updatedDataOf payload userID now) else p } : DBState)) =
        ((Except.ok ret : Except GoError Post), st') := hupd2
    injection hupd3 with h1 h2
    injection h1 with h1
    subst h1
    refine ⟨rfl, h2.symm, ?_⟩
    rw [← h2]
    unfold dbFirst
    rw [find_map_replace st.posts existing _ postID (dbFirst_ok_find st postID existing hfind)
      (by simp [applyNonZero, updatedDataOf])]

theorem findPostByID_of_find (st : DBState) (postID : Nat) (q : Post)
    (h : st.posts.find? (fun p => p.id == postID) = some q) :
    findPostByID st postID = Except.ok q := by
  unfold findPostByID dbFirst
  rw [h]

theorem createPost_ok_spec (st st' : DBState) (payload : CreatePostRequest)
    (userID now : Nat) (p : Post)
    (hc : createPost st payload userID now = (Except.ok p, st')) :
    p = { newPostOf payload userID now with id := st.nextId } ∧
    st' = { posts := st.posts ++ [p], nextId := st.nextId + 1 } := by
  by_cases hdup : (st.posts.any fun q => q.title == (newPostOf payload userID now).title) = true
  · have hval : createPost st payload userID now =
        (Except.error (GoError.simple "post with that title already exists"), st) := by
      unfold createPost dbCreate
      rw [if_pos hdup]
      rfl
    rw [hval] at hc
    exact absurd (congrArg Prod.fst hc) (by simp)
  · have hval : createPost st payload userID now =
        (Except.ok ({ newPostOf payload userID now with id := st.nextId } : Post),
         ({ posts := st.posts ++ [{ newPostOf payload userID now with id := st.nextId }],
            nextId := st.nextId + 1 } : DBState)) := by
      unfold createPost dbCreate
      rw [if_neg hdup]
      rfl
    rw [hval] at hc
    rw [Prod.mk.injEq] at hc
    obtain ⟨h1, h2⟩ := hc
    injection h1 with h1
    subst h1
    exact ⟨rfl, h2.symm⟩

/-- C1: an invalid raw `page` or `limit` value (one that fails to parse, or
parses below 1) is replaced by the default — page 1, limit 10 — rather
than rejected; the service passes offset `(page - 1) * limit` to the
store; and a call whose raw inputs are both invalid returns exactly the
result of `FindPage(page = 1, limit = 10)`. -/
theorem findPage_invalid_inputs_default (st : DBState) (rawPage rawLimit : Option Int)
    (page limit : Int)
    (hp : invalidParam rawPage = true) (hl : invalidParam rawLimit = true) :
    normalizePageParam rawPage = 1 ∧ normalizeLimitParam rawLimit = 10 ∧
    findPosts st page limit = dbFind st limit ((page - 1) * limit) ∧
    findPostsHandler st rawPage rawLimit = findPosts st 1 10 := by
  have h1 : normalizePageParam rawPage = 1 := by
    cases rawPage with
    | none => rfl
    | some n =>
      simp only [invalidParam, decide_eq_true_eq] at hp
      simp [normalizePageParam, hp]
  have h2 : normalizeLimitParam rawLimit = 10 := by
    cases rawLimit with
    | none => rfl
    | some n =>
      simp only [invalidParam, decide_eq_true_eq] at hl
      simp [normalizeLimitParam, hl]
  refine ⟨h1, h2, rfl, ?_⟩
  unfold findPostsHandler
  rw [h1, h2]

/-- Witness for C1 at raw page `none` (parse failure) and raw limit
`some 0` (non-positive). -/
theorem findPage_invalid_inputs_default_witness :
    invalidParam (none : Option Int) = true ∧ invalidParam (some 0) = true ∧
    (normalizePageParam none = 1 ∧ normalizeLimitParam (some 0) = 10 ∧
     findPosts sampleStore 3 7 = dbFind sampleStore 7 ((3 - 1) * 7) ∧
     findPostsHandler sampleStore none (some 0) = findPosts sampleStore 1 10) :=
  ⟨by decide, by decide,
   findPage_invalid_inputs_default sampleStore none (some 0) 3 7 (by decide) (by decide)⟩

/-- C2: Create fails with the conflict error
`post with that title already exists` when the store reports a
duplicate-key violation (in particular on a stored title collision), every
other store error is wrapped as an internal error preserving the cause,
and Create succeeds exactly when the store insert succeeds. -/
theorem createPost_error_taxonomy (st : DBState) (payload : CreatePostRequest)
    (userID now : Nat) (e1 e2 : GoError) (res : Except GoError Post)
    (hdup : (st.posts.any fun q => q.title == payload.title) = true)
    (h1 : strContains e1.message "duplicate key" = true)
    (h2 : strContains e2.message "duplicate key" = false) :
    createPost st payload userID now =
      (Except.error (GoError.simple "post with that title already exists"), st) ∧
    classifyCreateResult (Except.error e1) =
      Except.error (GoError.simple "post with that title already exists") ∧
    classifyCreateResult (Except.error e2) =
      Except.error (GoError.wrapper "failed to create post: " e2) ∧
    ((∃ q, classifyCreateResult res = Except.ok q) ↔ ∃ q, res = Except.ok q) := by
  refine ⟨?_, ?_, ?_, ?_⟩
  · have hdup2 : (st.posts.any fun q => q.title == (newPostOf payload userID now).title) = true := hdup
    unfold createPost dbCreate
    rw [if_pos hdup2]
    rfl
  · show (if strContains e1.message "duplicate key" = true then
        Except.error (GoError.simple "post with that title already exists")
      else Except.error (GoError.wrapper "failed to create post: " e1)) =
      Except.error (GoError.simple "post with that title already exists")
    rw [if_pos h1]
  · show (if strContains e2.message "duplicate key" = true then
        Except.error (GoError.simple "post with that title already exists")
      else Except.error (GoError.wrapper "failed to create post: " e2)) =
      Except.error (GoError.wrapper "failed to create post: " e2)
    rw [if_neg (by simp [h2])]
  · constructor
    · rintro ⟨q, hq⟩
      cases res with
      | ok r => exact ⟨r, rfl⟩
      | error e =>
        have hq2 : (if strContains e.message "duplicate key" = true then
            Except.error (GoError.simple "post with that title already exists")
          else Except.error (GoError.wrapper "failed to create post: " e)) =
            (Except.ok q : Except GoError Post) := hq
        split at hq2 <;> simp at hq2
    · rintro ⟨q, hq⟩
      subst hq
      exact ⟨q, rfl⟩

/-- Witness for C2: a stored-title collision, a duplicate-key message, a
plain connection error and a successful insert outcome. -/
theorem createPost_error_taxonomy_witness :
    (sampleStore.posts.any fun q => q.title == dupPayload.title) = true ∧
    strContains (GoError.simple "x duplicate key y").message "duplicate key" = true ∧
    strContains (GoError.simple "connection refused").message "duplicate key" = false ∧
    (createPost sampleStore dupPayload 9 7 =
      (Except.error (GoError.simple "post with that title already exists"), sampleStore) ∧
     classifyCreateResult (Except.error (GoError.simple "x duplicate key y")) =
      Except.error (GoError.simple "post with that title already exists") ∧
     classifyCreateResult (Except.error (GoError.simple "connection refused")) =
      Except.error (GoError.wrapper "failed to create post: " (GoError.simple "connection refused")) ∧
     ((∃ q, classifyCreateResult (Except.ok samplePost1) = Except.ok q) ↔
      ∃ q, (Except.ok samplePost1 : Except GoError Post) = Except.ok q)) :=
  ⟨by decide, by decide, by decide,
   createPost_error_taxonomy sampleStore dupPayload 9 7
     (GoError.simple "x duplicate key y") (GoError.simple "connection refused")
     (Except.ok samplePost1) (by decide) (by decide) (by decide)⟩

/-- C3: Update on an identifier with no stored row fails with
`post not found` and leaves the store exactly as it was. -/
theorem updatePost_absent_notFound (st : DBState) (postID : Nat)
    (payload : UpdatePostRequest) (userID now : Nat)
    (h : (st.posts.all fun q => !(q.id == postID)) = true) :
    updatePost st postID payload userID now =
      (Except.error (GoError.simple "post not found"), st) := by
  have hfind : st.posts.find? (fun p => p.id == postID) = none := by
    rw [List.find?_eq_none]
    intro x hx
    have hx2 := List.all_eq_true.mp h x hx
    simp only [Bool.not_eq_eq_eq_not, Bool.not_true] at hx2
    simp [hx2]
  unfold updatePost dbFirst
  rw [hfind]
  rfl

/-- Witness for C3 at identifier 99, absent from the sample store. -/
theorem updatePost_absent_notFound_witness :
    (sampleStore.posts.all fun q => !(q.id == 99)) = true ∧
    updatePost sampleStore 99 updPayload 9 50 =
      (Except.error (GoError.simple "post not found"), sampleStore) :=
  ⟨by decide, updatePost_absent_notFound sampleStore 99 updPayload 9 50 (by decide)⟩

/-- C4: a successful Update on an existing post rewrites the update
timestamp to the current time (hence to a value at least the previous
update timestamp, the clock being monotone), leaves the creation timestamp
unchanged, and re-stamps the owning user of the stored row to the caller,
with no hypothesis relating the caller to the previous owner. -/
theorem updatePost_success_stamps (st : DBState) (postID : Nat)
    (payload : UpdatePostRequest) (userID now : Nat)
    (existing ret : Post) (st' : DBState)
    (hfind : dbFirst st postID = Except.ok existing)
    (hupd : updatePost st postID payload userID now = (Except.ok ret, st'))
    (hmono : existing.updatedAt ≤ now) (hnow : now ≠ 0) (huser : userID ≠ 0) :
    ret.updatedAt = now ∧ existing.updatedAt ≤ ret.updatedAt ∧
    ret.createdAt = existing.createdAt ∧
    dbFirst st' postID = Except.ok ret ∧ ret.user = userID := by
  obtain ⟨hret, hst, hrow⟩ :=
    updatePost_ok_spec st postID payload userID now existing ret st' hfind hupd
  subst hret
  have h1 : (applyNonZero existing (updatedDataOf payload userID now)).updatedAt = now := by
    simp [applyNonZero, updatedDataOf, hnow]
  refine ⟨h1, ?_, ?_, hrow, ?_⟩
  · rw [h1]
    exact hmono
  · simp [applyNonZero, updatedDataOf]
  · simp [applyNonZero, updatedDataOf, huser]

/-- Witness for C4: user 9 updates the post of user 1 at time 50. -/
theorem updatePost_success_stamps_witness :
    dbFirst sampleStore 1 = Except.ok samplePost1 ∧
    updatePost sampleStore 1 updPayload 9 50 = (Except.ok updatedSample1, updatedStore) ∧
    samplePost1.updatedAt ≤ 50 ∧
    (updatedSample1.updatedAt = 50 ∧ samplePost1.updatedAt ≤ updatedSample1.updatedAt ∧
     updatedSample1.createdAt = samplePost1.createdAt ∧
     dbFirst updatedStore 1 = Except.ok updatedSample1 ∧ updatedSample1.user = 9) :=
  ⟨rfl, rfl, by decide,
   updatePost_success_stamps sampleStore 1 updPayload 9 50 samplePost1 updatedSample1
     updatedStore rfl rfl (by decide) (by decide) (by decide)⟩

/-- C5: Delete fails with `post not found` exactly when the store reports
zero affected rows with no error, succeeds (returning nothing) when at
least one row was affected, and wraps any store error as an internal
error preserving the cause; on the concrete store, zero affected rows is
exactly the absence of a matching row. -/
theorem deletePost_taxonomy (r0 : GormResult) (e : GoError) (n : Nat)
    (st : DBState) (postID : Nat)
    (h0 : r0.err = none) :
    ((deletePostResult r0 = some (GoError.simple "post not found")) ↔ r0.rowsAffected = 0) ∧
    ((deletePostResult r0 = none) ↔ r0.rowsAffected ≠ 0) ∧
    deletePostResult { err := some e, rowsAffected := n } =
      some (GoError.wrapper "failed to delete post: " e) ∧
    ((deletePost st postID).1 = some (GoError.simple "post not found") ↔
      (st.posts.all fun q => !(q.id == postID)) = true) := by
  have hval : deletePostResult r0 =
      (if r0.rowsAffected == 0 then some (GoError.simple "post not found") else none) := by
    unfold deletePostResult
    rw [h0]
  refine ⟨?_, ?_, rfl, ?_⟩
  · rw [hval]
    by_cases hn : r0.rowsAffected = 0 <;> simp [hn]
  · rw [hval]
    by_cases hn : r0.rowsAffected = 0 <;> simp [hn]
  · have h4 : (deletePost st postID).1 =
        (if (st.posts.length - (st.posts.filter fun p => !(p.id == postID)).length) == 0
         then some (GoError.simple "post not found") else none) := rfl
    rw [h4]
    by_cases hz : st.posts.length - (st.posts.filter fun p => !(p.id == postID)).length = 0
    · rw [if_pos (by simp [hz])]
      constructor
      · intro _
        exact (deleteRowsZero_iff st.posts postID).mp hz
      · intro _
        rfl
    · rw [if_neg (by simp [hz])]
      constructor
      · intro hcon
        exact Option.noConfusion hcon
      · intro hall
        exact (hz ((deleteRowsZero_iff st.posts postID).mpr hall)).elim

/-- Witness for C5: an errorless one-row outcome, a store error, and the
concrete store at an existing identifier. -/
theorem deletePost_taxonomy_witness :
    ({ err := none, rowsAffected := 1 } : GormResult).err = none ∧
    (((deletePostResult { err := none, rowsAffected := 1 } =
        some (GoError.simple "post not found")) ↔
      ({ err := none, rowsAffected := 1 } : GormResult).rowsAffected = 0) ∧
     ((deletePostResult { err := none, rowsAffected := 1 } = none) ↔
      ({ err := none, rowsAffected := 1 } : GormResult).rowsAffected ≠ 0) ∧
     deletePostResult { err := some (GoError.simple "boom"), rowsAffected := 2 } =
      some (GoError.wrapper "failed to delete post: " (GoError.simple "boom")) ∧
     ((deletePost sampleStore 1).1 = some (GoError.simple "post not found") ↔
      (sampleStore.posts.all fun q => !(q.id == 1)) = true)) :=
  ⟨rfl, deletePost_taxonomy { err := none, rowsAffected := 1 } (GoError.simple "boom") 2
    sampleStore 1 rfl⟩

/-- C6: a successful Create returns a post owned by the caller whose
creation and update timestamps are both the single clock reading taken at
the start of the call, hence equal to each other and at least any time
observed before the call. -/
theorem createPost_success_stamps (st st' : DBState) (payload : CreatePostRequest)
    (userID now t0 : Nat) (p : Post)
    (hc : createPost st payload userID now = (Except.ok p, st'))
    (ht : t0 ≤ now) :
    p.user = userID ∧ p.createdAt = now ∧ p.updatedAt = now ∧
    p.createdAt = p.updatedAt ∧ t0 ≤ p.createdAt ∧ t0 ≤ p.updatedAt := by
  obtain ⟨hp, hst⟩ := createPost_ok_spec st st' payload userID now p hc
  subst hp
  exact ⟨rfl, rfl, rfl, rfl, ht, ht⟩

/-- Witness for C6: user 4 creates a post at time 9, observed after time 8. -/
theorem createPost_success_stamps_witness :
    createPost sampleStore createdPayload 4 9 = (Except.ok createdPost, createdStore) ∧
    8 ≤ 9 ∧
    (createdPost.user = 4 ∧ createdPost.createdAt = 9 ∧ createdPost.updatedAt = 9 ∧
     createdPost.createdAt = createdPost.updatedAt ∧
     8 ≤ createdPost.createdAt ∧ 8 ≤ createdPost.updatedAt) :=
  ⟨rfl, by decide,
   createPost_success_stamps sampleStore createdStore createdPayload 4 9 8 createdPost
     rfl (by decide)⟩

/-- C7 as stated is false: the record Update returns is not the pre-update
stored record with only the request-supplied fields changed — the update
also re-stamps the owning user and the update timestamp on the returned
record, even though the request supplied neither.  Here the pre-update row
`samplePost1` has owner 1 and update timestamp 5, the request supplies
only a new title, yet the returned record carries owner 9 and update
timestamp 50. -/
theorem updatePost_return_not_preUpdate :
    (updatePost sampleStore 1 updPayload 9 50).1 = Except.ok updatedSample1 ∧
    updPayload.content = "" ∧ updPayload.image = "" ∧
    updatedSample1.user ≠ samplePost1.user ∧
    updatedSample1.updatedAt ≠ samplePost1.updatedAt := by
  refine ⟨rfl, rfl, rfl, by decide, by decide⟩

/-- C7 (amended): the record a successful Update returns is the pre-fetched
record with the update record applied in memory, not a re-read: each of
title, content and image reflects the pre-update stored value when the
request supplied the empty string and the supplied value otherwise, the
identifier and creation timestamp are the pre-update ones, and the owning
user and update timestamp are re-stamped to the caller and the call time
(kept only when those stamps are the Go zero values). -/
theorem updatePost_returns_applied_record (st : DBState) (postID : Nat)
    (payload : UpdatePostRequest) (userID now : Nat)
    (existing ret : Post) (st' : DBState)
    (hfind : dbFirst st postID = Except.ok existing)
    (hupd : updatePost st postID payload userID now = (Except.ok ret, st')) :
    ret.id = existing.id ∧
    ret.createdAt = existing.createdAt ∧
    ret.title = (if payload.title = "" then existing.title else payload.title) ∧
    ret.content = (if payload.content = "" then existing.content else payload.content) ∧
    ret.image = (if payload.image = "" then existing.image else payload.image) ∧
    ret.user = (if userID = 0 then existing.user else userID) ∧
    ret.updatedAt = (if now = 0 then existing.updatedAt else now) := by
  obtain ⟨hret, hst, hrow⟩ :=
    updatePost_ok_spec st postID payload userID now existing ret st' hfind hupd
  subst hret
  exact ⟨rfl, rfl, rfl, rfl, rfl, rfl, rfl⟩

/-- Witness for the amended C7 at the concrete update of `samplePost1`. -/
theorem updatePost_returns_applied_record_witness :
    dbFirst sampleStore 1 = Except.ok samplePost1 ∧
    updatePost sampleStore 1 updPayload 9 50 = (Except.ok updatedSample1, updatedStore) ∧
    (updatedSample1.id = samplePost1.id ∧
     updatedSample1.createdAt = samplePost1.createdAt ∧
     updatedSample1.title = (if updPayload.title = "" then samplePost1.title else updPayload.title) ∧
     updatedSample1.content = (if updPayload.content = "" then samplePost1.content else updPayload.content) ∧
     updatedSample1.image = (if updPayload.image = "" then samplePost1.image else updPayload.image) ∧
     updatedSample1.user = (if (9 : Nat) = 0 then samplePost1.user else 9) ∧
     updatedSample1.updatedAt = (if (50 : Nat) = 0 then samplePost1.updatedAt else 50)) :=
  ⟨rfl, rfl,
   updatePost_returns_applied_record sampleStore 1 updPayload 9 50 samplePost1
     updatedSample1 updatedStore rfl rfl⟩

/-- C8: a successful Create followed by FindByID on the identifier of the
returned post (with no intervening mutation) succeeds with a post equal in
all fields to the one Create returned. -/
theorem create_find_roundtrip (st st' : DBState) (payload : CreatePostRequest)
    (userID now : Nat) (p : Post)
    (hwf : dbWF st = true)
    (hc : createPost st payload userID now = (Except.ok p, st')) :
    findPostByID st' p.id = Except.ok p := by
  obtain ⟨hp, hst⟩ := createPost_ok_spec st st' payload userID now p hc
  subst hp
  apply findPostByID_of_find
  have hposts : st'.posts =
      st.posts ++ [{ newPostOf payload userID now with id := st.nextId }] := by
    rw [hst]
  rw [hposts]
  apply find_append_right
  · rw [List.find?_eq_none]
    intro x hx
    have hlt := List.all_eq_true.mp hwf x hx
    simp only [decide_eq_true_eq] at hlt
    simp only [beq_iff_eq]
    show ¬ x.id = st.nextId
    omega
  · simp

/-- Witness for C8 at the concrete create of `createdPayload`. -/
theorem create_find_roundtrip_witness :
    dbWF sampleStore = true ∧
    createPost sampleStore createdPayload 4 9 = (Except.ok createdPost, createdStore) ∧
    findPostByID createdStore createdPost.id = Except.ok createdPost :=
  ⟨by decide, rfl,
   create_find_roundtrip sampleStore createdStore createdPayload 4 9 createdPost
     (by decide) rfl⟩

/-- C9: fields of the update record holding the empty string are skipped
when the update is applied, so an empty title, content or image in the
request leaves that column of the stored row unchanged; the stored row is
the returned record. -/
theorem updatePost_empty_fields_skipped (st : DBState) (postID : Nat)
    (payload : UpdatePostRequest) (userID now : Nat)
    (existing ret : Post) (st' : DBState)
    (hfind : dbFirst st postID = Except.ok existing)
    (hupd : updatePost st postID payload userID now = (Except.ok ret, st')) :
    dbFirst st' postID = Except.ok ret ∧
    ret.title = (if payload.title = "" then existing.title else payload.title) ∧
    ret.content = (if payload.content = "" then existing.content else payload.content) ∧
    ret.image = (if payload.image = "" then existing.image else payload.image) := by
  obtain ⟨hret, hst, hrow⟩ :=
    updatePost_ok_spec st postID payload userID now existing ret st' hfind hupd
  subst hret
  exact ⟨hrow, rfl, rfl, rfl⟩

/-- Witness for C9: the empty content and image of `updPayload` leave the
stored content and image of `samplePost1` unchanged. -/
theorem updatePost_empty_fields_skipped_witness :
    dbFirst sampleStore 1 = Except.ok samplePost1 ∧
    updatePost sampleStore 1 updPayload 9 50 = (Except.ok updatedSample1, updatedStore) ∧
    (dbFirst updatedStore 1 = Except.ok updatedSample1 ∧
     updatedSample1.title = (if updPayload.title = "" then samplePost1.title else updPayload.title) ∧
     updatedSample1.content = (if updPayload.content = "" then samplePost1.content else updPayload.content) ∧
     updatedSample1.image = (if updPayload.image = "" then samplePost1.image else updPayload.image)) :=
  ⟨rfl, rfl,
   updatePost_empty_fields_skipped sampleStore 1 updPayload 9 50 samplePost1
     updatedSample1 updatedStore rfl rfl⟩

/-- C10: every store error whose text contains the substring
`duplicate key` is reported by Create as the title conflict
`post with that title already exists`, whichever uniqueness constraint
produced it — in particular a violation of a users-email constraint is
still reported as a title conflict, because the classification looks only
at the message substring. -/
theorem createPost_conflict_by_substring (e : GoError)
    (h : strContains e.message "duplicate key" = true) :
    classifyCreateResult (Except.error e) =
      Except.error (GoError.simple "post with that title already exists") ∧
    classifyCreateResult (Except.error (GoError.simple
      "ERROR: duplicate key value violates unique constraint \"users_email_key\" (SQLSTATE 23505)")) =
      Except.error (GoError.simple "post with that title already exists") := by
  constructor
  · show (if strContains e.message "duplicate key" = true then
        Except.error (GoError.simple "post with that title already exists")
      else Except.error (GoError.wrapper "failed to create post: " e)) =
      Except.error (GoError.simple "post with that title already exists")
    rw [if_pos h]
  · rfl

/-- Witness for C10 at a wrapped duplicate-key error from a non-title
constraint. -/
theorem createPost_conflict_by_substring_witness :
    strContains (GoError.wrapper "insert: "
      (GoError.simple "pq: duplicate key value (users_pkey)")).message "duplicate key" = true ∧
    (classifyCreateResult (Except.error (GoError.wrapper "insert: "
        (GoError.simple "pq: duplicate key value (users_pkey)"))) =
      Except.error (GoError.simple "post with that title already exists") ∧
     classifyCreateResult (Except.error (GoError.simple
        "ERROR: duplicate key value violates unique constraint \"users_email_key\" (SQLSTATE 23505)")) =
      Except.error (GoError.simple "post with that title already exists")) :=
  ⟨by decide,
   createPost_conflict_by_substring (GoError.wrapper "insert: "
     (GoError.simple "pq: duplicate key value (users_pkey)")) (by decide)⟩
